import Mathlib

/-!
Verification of `FramebufferSurface`
(`services/surfaceflinger/DisplayHardware/FramebufferSurface.cpp`).

The surface keeps two fields of mutable state, `mCurrentBufferSlot : int`
(with `BufferQueue::INVALID_BUFFER_SLOT = -1` meaning "no current slot")
and `mCurrentBuffer : sp<GraphicBuffer>` (a possibly-null shared pointer).
The BufferQueue / ConsumerBase collaborators (`acquireBufferLocked`,
`releaseBufferLocked`, `addReleaseFence`, the `mSlots` table, `fbPost`)
are modelled as oracle parameters: each call site receives the status the
collaborator would return, and the embedding records which calls were
issued so that "no release call is issued" style claims are statable.

Shared pointers are modelled as `Option` over abstract handles; a null
`sp<>` is `none`.  Status codes (`NO_ERROR`, `BufferQueue::NO_BUFFER_AVAILABLE`,
`BufferQueue::STALE_BUFFER_SLOT`, `INVALID_OPERATION`, other errno-style
codes) are modelled as an inductive with decidable equality, since the
source only ever compares a status against these named constants.
-/

namespace FramebufferSurface

/-- Identity of a `GraphicBuffer`; `sp<GraphicBuffer>` is `Option Handle`
with `none` for the null pointer the constructor writes (`mCurrentBuffer(0)`). -/
abbrev Handle := Nat

/-- Identity of a `Fence`; `sp<Fence>` is `Option FenceT`. -/
abbrev FenceT := Nat

/-- The status codes the source compares against: `NO_ERROR`,
`BufferQueue::NO_BUFFER_AVAILABLE`, `BufferQueue::STALE_BUFFER_SLOT`,
`INVALID_OPERATION`, and any other `status_t` value. -/
inductive Status where
  | noError
  | noBufferAvailable
  | staleBufferSlot
  | invalidOperation
  | otherError (code : Int)
deriving DecidableEq

/-- BufferQueue::INVALID_BUFFER_SLOT. -/
def INVALID_BUFFER_SLOT : Int := -1

/-- The fields of `BufferQueue::BufferItem` read by `nextBuffer`:
the slot index `mBuf` and the acquire fence `mFence`. -/
structure BufferItem where
  mBuf : Int
  mFence : Option FenceT
deriving DecidableEq

/-- The mutable state of the surface: `mCurrentBufferSlot` and
`mCurrentBuffer`. -/
structure SurfaceState where
  mCurrentBufferSlot : Int
  mCurrentBuffer : Option Handle
deriving DecidableEq

/-- Constructor state: `mCurrentBufferSlot(-1), mCurrentBuffer(0)`. -/
def initState : SurfaceState :=
  { mCurrentBufferSlot := INVALID_BUFFER_SLOT, mCurrentBuffer := none }

/-- The slot table `mSlots`, read at `mSlots[i].mGraphicBuffer`. -/
abbrev SlotTable := Int → Option Handle

/-- Oracle for one `nextBuffer` call: the status `acquireBufferLocked`
returns, the `BufferItem` it fills on success, the status
`releaseBufferLocked` would return for a given slot, and the current
contents of the `mSlots` table. -/
structure NextBufferEnv where
  acquireStatus : Status
  acquireItem : BufferItem
  releaseStatus : Int → Status
  slots : SlotTable

/-- Observable outcome of one `nextBuffer` call: the returned `status_t`,
the final values of the out-parameters `outBuffer` and `outFence`, the
state after the call, and the slot passed to `releaseBufferLocked` when
that call was issued (`none` when it was not). -/
structure NextBufferResult where
  status : Status
  outBuffer : Option Handle
  outFence : Option FenceT
  state : SurfaceState
  releasedSlot : Option Int
deriving DecidableEq

/-- `FramebufferSurface::nextBuffer` (lines 77-113).  `inBuffer` and
`inFence` are the values the caller holds in the reference
out-parameters, left untouched on the paths that do not assign them. -/
def nextBuffer (env : NextBufferEnv) (s : SurfaceState)
    (inBuffer : Option Handle) (inFence : Option FenceT) : NextBufferResult :=
  if env.acquireStatus = Status.noBufferAvailable then
    { status := Status.noError, outBuffer := s.mCurrentBuffer,
      outFence := inFence, state := s, releasedSlot := none }
  else if env.acquireStatus ≠ Status.noError then
    { status := env.acquireStatus, outBuffer := inBuffer,
      outFence := inFence, state := s, releasedSlot := none }
  else
    let item := env.acquireItem
    if s.mCurrentBufferSlot ≠ INVALID_BUFFER_SLOT ∧
        item.mBuf ≠ s.mCurrentBufferSlot then
      let rerr := env.releaseStatus s.mCurrentBufferSlot
      if rerr ≠ Status.noError ∧ rerr ≠ Status.staleBufferSlot then
        { status := rerr, outBuffer := inBuffer, outFence := inFence,
          state := s, releasedSlot := some s.mCurrentBufferSlot }
      else
        { status := Status.noError, outBuffer := env.slots item.mBuf,
          outFence := item.mFence,
          state := { mCurrentBufferSlot := item.mBuf,
                     mCurrentBuffer := env.slots item.mBuf },
          releasedSlot := some s.mCurrentBufferSlot }
    else
      { status := Status.noError, outBuffer := env.slots item.mBuf,
        outFence := item.mFence,
        state := { mCurrentBufferSlot := item.mBuf,
                   mCurrentBuffer := env.slots item.mBuf },
        releasedSlot := none }

/-- `FramebufferSurface::freeBufferLocked` (lines 131-136).  The call to
`ConsumerBase::freeBufferLocked(slotIndex)` discards the buffer held in
that slot of the table; then the surface resets `mCurrentBufferSlot` when
the freed index is the current one.  Returns the updated table and state. -/
def freeBufferLocked (slots : SlotTable) (s : SurfaceState)
    (slotIndex : Int) : SlotTable × SurfaceState :=
  let slots1 : SlotTable := fun i => if i = slotIndex then none else slots i
  if slotIndex = s.mCurrentBufferSlot then
    (slots1, { s with mCurrentBufferSlot := INVALID_BUFFER_SLOT })
  else
    (slots1, s)

/-- Observable outcome of `setReleaseFenceFd`: the returned `status_t`,
the `(slot, fence)` pair passed to `addReleaseFence` when that call was
issued, the status that call returned when it was issued, and the surface
state after the call. -/
structure ReleaseFenceResult where
  status : Status
  attached : Option (Int × FenceT)
  poolStatus : Option Status
  state : SurfaceState
deriving DecidableEq

/-- `FramebufferSurface::setReleaseFenceFd` (lines 138-149).  The source
declares `status_t err = NO_ERROR;` and returns `err`, but the result of
`addReleaseFence` is bound to a second, inner `status_t err` that shadows
the outer variable and is only logged, so the returned status is always
`NO_ERROR`.  `addRel` is the oracle for `addReleaseFence`. -/
def setReleaseFenceFd (addRel : Int → FenceT → Status)
    (s : SurfaceState) (fenceFd : Int) : ReleaseFenceResult :=
  if 0 ≤ fenceFd then
    let fence : FenceT := fenceFd.toNat
    if s.mCurrentBufferSlot ≠ INVALID_BUFFER_SLOT then
      let innerErr := addRel s.mCurrentBufferSlot fence
      { status := Status.noError,
        attached := some (s.mCurrentBufferSlot, fence),
        poolStatus := some innerErr, state := s }
    else
      { status := Status.noError, attached := none,
        poolStatus := none, state := s }
  else
    { status := Status.noError, attached := none,
      poolStatus := none, state := s }

/-- Model of `Rect`, the argument of `setUpdateRectangle`; only its
identity matters, the function never reads it. -/
structure Rect where
  left : Int
  top : Int
  right : Int
  bottom : Int
deriving DecidableEq

/-- `FramebufferSurface::setUpdateRectangle` (lines 151-154): returns
`INVALID_OPERATION`, touching no state. -/
def setUpdateRectangle (s : SurfaceState) (r : Rect) : Status × SurfaceState :=
  (Status.invalidOperation, s)

/-- Observable outcome of `onFrameAvailable`: the state after the call,
the `(fence, buffer)` pair passed to `mHwc.fbPost` when that call was
issued (`none` when `nextBuffer` failed), and the status `fbPost`
returned when it was issued. -/
structure FrameAvailableResult where
  state : SurfaceState
  posted : Option (Option FenceT × Option Handle)
  postStatus : Option Status
deriving DecidableEq

/-- `FramebufferSurface::onFrameAvailable` (lines 116-129).  Calls
`nextBuffer` on null local `sp<>`s; on success forwards
`(acquireFence, buf)` to `mHwc.fbPost(0, acquireFence, buf)`; on error
returns without posting.  `fbPost` is the oracle for the HWComposer. -/
def onFrameAvailable (env : NextBufferEnv)
    (fbPost : Option FenceT → Option Handle → Status)
    (s : SurfaceState) : FrameAvailableResult :=
  let r := nextBuffer env s none none
  if r.status ≠ Status.noError then
    { state := r.state, posted := none, postStatus := none }
  else
    { state := r.state, posted := some (r.outFence, r.outBuffer),
      postStatus := some (fbPost r.outFence r.outBuffer) }

/-! Claim theorems. -/

/-- C1: when `acquireBufferLocked` succeeds and yields an item whose slot
index equals the tracked current slot (which is valid), `nextBuffer`
issues no release call, re-reads the current buffer handle from the slot
table at that index (into both `mCurrentBuffer` and the out-parameter),
keeps the same current slot, and returns success with the acquire fence
of the item. -/
theorem nextBuffer_sameIndexSkip (env : NextBufferEnv) (s : SurfaceState)
    (inBuffer : Option Handle) (inFence : Option FenceT)
    (hacq : env.acquireStatus = Status.noError)
    (hvalid : s.mCurrentBufferSlot ≠ INVALID_BUFFER_SLOT)
    (hsame : env.acquireItem.mBuf = s.mCurrentBufferSlot) :
    (nextBuffer env s inBuffer inFence).releasedSlot = none ∧
    (nextBuffer env s inBuffer inFence).status = Status.noError ∧
    (nextBuffer env s inBuffer inFence).outBuffer =
      env.slots s.mCurrentBufferSlot ∧
    (nextBuffer env s inBuffer inFence).state.mCurrentBuffer =
      env.slots s.mCurrentBufferSlot ∧
    (nextBuffer env s inBuffer inFence).state.mCurrentBufferSlot =
      s.mCurrentBufferSlot ∧
    (nextBuffer env s inBuffer inFence).outFence = env.acquireItem.mFence := by
  simp [nextBuffer, hacq, hsame]

/-- Concrete oracle for the C1 witness: the pool redelivers slot 0, the
slot table now holds buffer 9 in slot 0. -/
def envSame : NextBufferEnv :=
  { acquireStatus := Status.noError
    acquireItem := { mBuf := 0, mFence := some 5 }
    releaseStatus := fun _ => Status.noError
    slots := fun i => if i = 0 then some 9 else none }

/-- Concrete surface state with current slot 0 holding buffer 7. -/
def sSame : SurfaceState := { mCurrentBufferSlot := 0, mCurrentBuffer := some 7 }

/-- C1 witness: the same-index-skip theorem applied at a concrete input. -/
theorem nextBuffer_sameIndexSkip_witness :
    (nextBuffer envSame sSame none none).releasedSlot = none ∧
    (nextBuffer envSame sSame none none).status = Status.noError ∧
    (nextBuffer envSame sSame none none).outBuffer =
      envSame.slots sSame.mCurrentBufferSlot ∧
    (nextBuffer envSame sSame none none).state.mCurrentBuffer =
      envSame.slots sSame.mCurrentBufferSlot ∧
    (nextBuffer envSame sSame none none).state.mCurrentBufferSlot =
      sSame.mCurrentBufferSlot ∧
    (nextBuffer envSame sSame none none).outFence = envSame.acquireItem.mFence :=
  nextBuffer_sameIndexSkip envSame sSame none none rfl (by decide) rfl

/-- C2: when `acquireBufferLocked` reports `NO_BUFFER_AVAILABLE`,
`nextBuffer` returns success, the out-buffer is the tracked current
buffer, the fence out-parameter is untouched (the only caller passes a
null fence, so no fence is returned), and the state is unchanged.
The second conjunct gives the sequence-level no-regression invariant:
every call that returns success yields exactly the tracked current
buffer of its post-state, so the tracked current buffer always equals
the buffer returned by the most recent successful call. -/
theorem nextBuffer_noBufferAvailable (env : NextBufferEnv) (s : SurfaceState)
    (inBuffer : Option Handle) (inFence : Option FenceT)
    (hacq : env.acquireStatus = Status.noBufferAvailable) :
    ((nextBuffer env s inBuffer inFence).status = Status.noError ∧
     (nextBuffer env s inBuffer inFence).outBuffer = s.mCurrentBuffer ∧
     (nextBuffer env s inBuffer inFence).outFence = inFence ∧
     (nextBuffer env s inBuffer inFence).state = s) ∧
    (∀ (env2 : NextBufferEnv) (s2 : SurfaceState)
       (inB2 : Option Handle) (inF2 : Option FenceT),
      (nextBuffer env2 s2 inB2 inF2).status = Status.noError →
      (nextBuffer env2 s2 inB2 inF2).outBuffer =
        (nextBuffer env2 s2 inB2 inF2).state.mCurrentBuffer) := by
  constructor
  · simp [nextBuffer, hacq]
  · intro env2 s2 inB2 inF2 h
    by_cases h1 : env2.acquireStatus = Status.noBufferAvailable
    · simp [nextBuffer, h1]
    · by_cases h2 : env2.acquireStatus = Status.noError
      · by_cases h3 : s2.mCurrentBufferSlot ≠ INVALID_BUFFER_SLOT ∧
            env2.acquireItem.mBuf ≠ s2.mCurrentBufferSlot
        · by_cases h4 :
              env2.releaseStatus s2.mCurrentBufferSlot ≠ Status.noError ∧
              env2.releaseStatus s2.mCurrentBufferSlot ≠ Status.staleBufferSlot
          · simp [nextBuffer, h1, h2, h3, h4] at h
          · simp [nextBuffer, h1, h2, h3, h4]
        · simp [nextBuffer, h1, h2, h3]
      · simp [nextBuffer, h1, h2] at h

/-- Concrete oracle reporting `NO_BUFFER_AVAILABLE`. -/
def envNBA : NextBufferEnv :=
  { acquireStatus := Status.noBufferAvailable
    acquireItem := { mBuf := 0, mFence := none }
    releaseStatus := fun _ => Status.noError
    slots := fun _ => none }

/-- C2 witness: the no-buffer-available theorem applied at a concrete
input. -/
theorem nextBuffer_noBufferAvailable_witness :
    (nextBuffer envNBA sSame none none).status = Status.noError ∧
    (nextBuffer envNBA sSame none none).outBuffer = sSame.mCurrentBuffer ∧
    (nextBuffer envNBA sSame none none).outFence = none ∧
    (nextBuffer envNBA sSame none none).state = sSame ∧
    (nextBuffer envNBA sSame none none).outBuffer =
      (nextBuffer envNBA sSame none none).state.mCurrentBuffer :=
  have h := nextBuffer_noBufferAvailable envNBA sSame none none rfl
  ⟨h.1.1, h.1.2.1, h.1.2.2.1, h.1.2.2.2, h.2 envNBA sSame none none h.1.1⟩

/-- C3: `nextBuffer` is atomic on error.  Any call that returns a status
other than `NO_ERROR` leaves the surface state and both out-parameters
exactly as they were; an `acquireBufferLocked` error other than
`NO_BUFFER_AVAILABLE` is propagated verbatim, and a release error other
than `STALE_BUFFER_SLOT` is propagated verbatim, in both cases before
the current-slot mutation happens. -/
theorem nextBuffer_errorAtomic (env : NextBufferEnv) (s : SurfaceState)
    (inBuffer : Option Handle) (inFence : Option FenceT) :
    ((nextBuffer env s inBuffer inFence).status ≠ Status.noError →
      (nextBuffer env s inBuffer inFence).state = s ∧
      (nextBuffer env s inBuffer inFence).outBuffer = inBuffer ∧
      (nextBuffer env s inBuffer inFence).outFence = inFence) ∧
    (env.acquireStatus ≠ Status.noBufferAvailable →
      env.acquireStatus ≠ Status.noError →
      (nextBuffer env s inBuffer inFence).status = env.acquireStatus) ∧
    (env.acquireStatus = Status.noError →
      s.mCurrentBufferSlot ≠ INVALID_BUFFER_SLOT →
      env.acquireItem.mBuf ≠ s.mCurrentBufferSlot →
      env.releaseStatus s.mCurrentBufferSlot ≠ Status.noError →
      env.releaseStatus s.mCurrentBufferSlot ≠ Status.staleBufferSlot →
      (nextBuffer env s inBuffer inFence).status =
        env.releaseStatus s.mCurrentBufferSlot) := by
  refine ⟨?_, ?_, ?_⟩
  · intro h
    by_cases h1 : env.acquireStatus = Status.noBufferAvailable
    · simp [nextBuffer, h1] at h
    · by_cases h2 : env.acquireStatus = Status.noError
      · by_cases h3 : s.mCurrentBufferSlot ≠ INVALID_BUFFER_SLOT ∧
            env.acquireItem.mBuf ≠ s.mCurrentBufferSlot
        · by_cases h4 :
              env.releaseStatus s.mCurrentBufferSlot ≠ Status.noError ∧
              env.releaseStatus s.mCurrentBufferSlot ≠ Status.staleBufferSlot
          · simp [nextBuffer, h1, h2, h3, h4]
          · simp [nextBuffer, h1, h2, h3, h4] at h
        · simp [nextBuffer, h1, h2, h3] at h
      · simp [nextBuffer, h1, h2]
  · intro h1 h2
    simp [nextBuffer, h1, h2]
  · intro h2 h3a h3b h4a h4b
    have h1 : env.acquireStatus ≠ Status.noBufferAvailable := by
      rw [h2]; intro hcon; exact Status.noConfusion hcon
    simp [nextBuffer, h1, h2, h3a, h3b, h4a, h4b]

/-- Concrete oracle whose acquire call fails with an errno-style code. -/
def envAcqErr : NextBufferEnv :=
  { acquireStatus := Status.otherError (-22)
    acquireItem := { mBuf := 0, mFence := none }
    releaseStatus := fun _ => Status.noError
    slots := fun _ => none }

/-- C3 witness: the error-atomicity theorem applied at a concrete input
where the acquire call fails. -/
theorem nextBuffer_errorAtomic_witness :
    (nextBuffer envAcqErr sSame none none).status = Status.otherError (-22) ∧
    (nextBuffer envAcqErr sSame none none).state = sSame :=
  ⟨((nextBuffer_errorAtomic envAcqErr sSame none none).2.1 (by decide) (by decide)),
   ((nextBuffer_errorAtomic envAcqErr sSame none none).1 (by decide)).1⟩

/-- C4: when a different previous current slot exists and its release
returns `STALE_BUFFER_SLOT`, `nextBuffer` still completes successfully:
the release call was issued on the previous slot, the current slot
becomes the acquired index, the current buffer handle is read from the
slot table at that index, and the acquired fence is returned. -/
theorem nextBuffer_staleTolerance (env : NextBufferEnv) (s : SurfaceState)
    (inBuffer : Option Handle) (inFence : Option FenceT)
    (hacq : env.acquireStatus = Status.noError)
    (hvalid : s.mCurrentBufferSlot ≠ INVALID_BUFFER_SLOT)
    (hdiff : env.acquireItem.mBuf ≠ s.mCurrentBufferSlot)
    (hstale : env.releaseStatus s.mCurrentBufferSlot = Status.staleBufferSlot) :
    (nextBuffer env s inBuffer inFence).status = Status.noError ∧
    (nextBuffer env s inBuffer inFence).releasedSlot =
      some s.mCurrentBufferSlot ∧
    (nextBuffer env s inBuffer inFence).state.mCurrentBufferSlot =
      env.acquireItem.mBuf ∧
    (nextBuffer env s inBuffer inFence).state.mCurrentBuffer =
      env.slots env.acquireItem.mBuf ∧
    (nextBuffer env s inBuffer inFence).outBuffer =
      env.slots env.acquireItem.mBuf ∧
    (nextBuffer env s inBuffer inFence).outFence = env.acquireItem.mFence := by
  have h1 : env.acquireStatus ≠ Status.noBufferAvailable := by
    rw [hacq]; intro hcon; exact Status.noConfusion hcon
  simp [nextBuffer, h1, hacq, hvalid, hdiff, hstale]

/-- Concrete oracle for the C4 witness: slot 1 is acquired, releasing
the previous slot reports `STALE_BUFFER_SLOT`. -/
def envStale : NextBufferEnv :=
  { acquireStatus := Status.noError
    acquireItem := { mBuf := 1, mFence := some 4 }
    releaseStatus := fun _ => Status.staleBufferSlot
    slots := fun i => if i = 1 then some 11 else none }

/-- C4 witness: the stale-tolerance theorem applied at a concrete
input. -/
theorem nextBuffer_staleTolerance_witness :
    (nextBuffer envStale sSame none none).status = Status.noError ∧
    (nextBuffer envStale sSame none none).releasedSlot =
      some sSame.mCurrentBufferSlot ∧
    (nextBuffer envStale sSame none none).state.mCurrentBufferSlot =
      envStale.acquireItem.mBuf ∧
    (nextBuffer envStale sSame none none).state.mCurrentBuffer =
      envStale.slots envStale.acquireItem.mBuf ∧
    (nextBuffer envStale sSame none none).outBuffer =
      envStale.slots envStale.acquireItem.mBuf ∧
    (nextBuffer envStale sSame none none).outFence =
      envStale.acquireItem.mFence :=
  nextBuffer_staleTolerance envStale sSame none none rfl (by decide)
    (by decide) rfl

/-- Concrete oracle that acquires slot 0 whose table entry holds
buffer 7; used to reach a state with a current buffer from `initState`. -/
def envAcq0 : NextBufferEnv :=
  { acquireStatus := Status.noError
    acquireItem := { mBuf := 0, mFence := some 3 }
    releaseStatus := fun _ => Status.noError
    slots := fun i => if i = 0 then some 7 else none }

/-- C5 counterexample: starting from the constructor state, acquire
slot 0 (buffer 7 becomes current), then free slot 0 (the current slot):
`freeBufferLocked` resets only `mCurrentBufferSlot`, leaving
`mCurrentBuffer` at buffer 7, so the next `nextBuffer` call that gets
`NO_BUFFER_AVAILABLE` returns buffer 7 — a buffer handle, not the
empty/null buffer the claim requires. -/
theorem freeCurrent_keepsBuffer_counterexample :
    (nextBuffer envAcq0 initState none none).state =
      { mCurrentBufferSlot := 0, mCurrentBuffer := some 7 } ∧
    (freeBufferLocked envAcq0.slots
        (nextBuffer envAcq0 initState none none).state 0).2 =
      { mCurrentBufferSlot := INVALID_BUFFER_SLOT,
        mCurrentBuffer := some 7 } ∧
    (nextBuffer envNBA
        (freeBufferLocked envAcq0.slots
          (nextBuffer envAcq0 initState none none).state 0).2
        none none).status = Status.noError ∧
    (nextBuffer envNBA
        (freeBufferLocked envAcq0.slots
          (nextBuffer envAcq0 initState none none).state 0).2
        none none).outBuffer = some 7 ∧
    some 7 ≠ (none : Option Handle) := by
  refine ⟨rfl, rfl, rfl, rfl, by decide⟩

/-- C5 amended: freeing the current slot resets the current slot index
to `INVALID_BUFFER_SLOT` but leaves the tracked current buffer handle in
place, so a subsequent `nextBuffer` call that gets `NO_BUFFER_AVAILABLE`
still returns success together with the previously tracked buffer
handle, not an empty/null buffer. -/
theorem freeCurrent_nba_returnsOldBuffer (slots : SlotTable)
    (s : SurfaceState) (env : NextBufferEnv)
    (inBuffer : Option Handle) (inFence : Option FenceT)
    (hnba : env.acquireStatus = Status.noBufferAvailable) :
    (freeBufferLocked slots s s.mCurrentBufferSlot).2.mCurrentBufferSlot =
      INVALID_BUFFER_SLOT ∧
    (freeBufferLocked slots s s.mCurrentBufferSlot).2.mCurrentBuffer =
      s.mCurrentBuffer ∧
    (nextBuffer env (freeBufferLocked slots s s.mCurrentBufferSlot).2
        inBuffer inFence).status = Status.noError ∧
    (nextBuffer env (freeBufferLocked slots s s.mCurrentBufferSlot).2
        inBuffer inFence).outBuffer = s.mCurrentBuffer := by
  refine ⟨?_, ?_, ?_, ?_⟩ <;> simp [freeBufferLocked, nextBuffer, hnba]

/-- C5 witness: the amended theorem applied at a concrete input. -/
theorem freeCurrent_nba_returnsOldBuffer_witness :
    (freeBufferLocked envAcq0.slots sSame
        sSame.mCurrentBufferSlot).2.mCurrentBufferSlot =
      INVALID_BUFFER_SLOT ∧
    (freeBufferLocked envAcq0.slots sSame
        sSame.mCurrentBufferSlot).2.mCurrentBuffer = sSame.mCurrentBuffer ∧
    (nextBuffer envNBA (freeBufferLocked envAcq0.slots sSame
        sSame.mCurrentBufferSlot).2 none none).status = Status.noError ∧
    (nextBuffer envNBA (freeBufferLocked envAcq0.slots sSame
        sSame.mCurrentBufferSlot).2 none none).outBuffer =
      sSame.mCurrentBuffer :=
  freeCurrent_nba_returnsOldBuffer envAcq0.slots sSame envNBA none none rfl

/-- C6: evaluation of `setReleaseFenceFd` at a failing input.  With a
current slot, a non-negative fence descriptor, and a pool whose
`addReleaseFence` fails with an errno-style code, the attach call is
issued and fails, yet the function returns `NO_ERROR`: the inner
`status_t err` shadows the outer one, so the pool error is logged but
never propagated, contradicting the claim. -/
theorem setReleaseFenceFd_dropsPoolError :
    (setReleaseFenceFd (fun _ _ => Status.otherError (-22)) sSame 5).status =
      Status.noError ∧
    (setReleaseFenceFd (fun _ _ => Status.otherError (-22)) sSame 5).attached =
      some (0, 5) ∧
    (setReleaseFenceFd (fun _ _ => Status.otherError (-22)) sSame 5).poolStatus =
      some (Status.otherError (-22)) ∧
    Status.noError ≠ Status.otherError (-22) := by
  refine ⟨rfl, rfl, rfl, by decide⟩

/-- C7: `setUpdateRectangle` returns `INVALID_OPERATION` and leaves the
surface state untouched, for every prior state and region argument. -/
theorem setUpdateRectangle_unsupported (s : SurfaceState) (r : Rect) :
    setUpdateRectangle s r = (Status.invalidOperation, s) := rfl

/-- C8: `onFrameAvailable` calls `nextBuffer` on null out-parameters;
when that call succeeds, the resulting fence and buffer are forwarded to
`mHwc.fbPost`; when it fails, `fbPost` is not invoked. -/
theorem onFrameAvailable_postGating (env : NextBufferEnv)
    (fbPost : Option FenceT → Option Handle → Status) (s : SurfaceState) :
    ((nextBuffer env s none none).status = Status.noError →
      (onFrameAvailable env fbPost s).posted =
        some ((nextBuffer env s none none).outFence,
              (nextBuffer env s none none).outBuffer) ∧
      (onFrameAvailable env fbPost s).postStatus =
        some (fbPost (nextBuffer env s none none).outFence
                (nextBuffer env s none none).outBuffer)) ∧
    ((nextBuffer env s none none).status ≠ Status.noError →
      (onFrameAvailable env fbPost s).posted = none ∧
      (onFrameAvailable env fbPost s).postStatus = none) := by
  constructor
  · intro h
    simp [onFrameAvailable, h]
  · intro h
    simp [onFrameAvailable, h]

/-- C8 witness: the post-gating theorem applied at a concrete input
where `nextBuffer` succeeds. -/
theorem onFrameAvailable_postGating_witness :
    (onFrameAvailable envAcq0 (fun _ _ => Status.noError)
        initState).posted =
      some ((nextBuffer envAcq0 initState none none).outFence,
            (nextBuffer envAcq0 initState none none).outBuffer) ∧
    (onFrameAvailable envAcq0 (fun _ _ => Status.noError)
        initState).postStatus =
      some ((fun _ _ => Status.noError)
              (nextBuffer envAcq0 initState none none).outFence
              (nextBuffer envAcq0 initState none none).outBuffer) :=
  (onFrameAvailable_postGating envAcq0 (fun _ _ => Status.noError)
      initState).1 rfl

/-- C9: freeing a slot whose index differs from the tracked current slot
leaves the surface state (current slot index and current buffer handle)
unchanged. -/
theorem freeBufferLocked_otherSlot (slots : SlotTable) (s : SurfaceState)
    (slotIndex : Int) (h : slotIndex ≠ s.mCurrentBufferSlot) :
    (freeBufferLocked slots s slotIndex).2 = s := by
  simp [freeBufferLocked, h]

/-- C9 witness: the other-slot theorem applied at a concrete input. -/
theorem freeBufferLocked_otherSlot_witness :
    (freeBufferLocked envAcq0.slots sSame 2).2 = sSame :=
  freeBufferLocked_otherSlot envAcq0.slots sSame 2 (by decide)

/-- C10: a negative fence descriptor makes `setReleaseFenceFd` a
success-returning no-op: no fence is constructed, no attach call is
issued to the pool, and the surface state is unchanged, whatever the
current slot is. -/
theorem setReleaseFenceFd_negativeFd (addRel : Int → FenceT → Status)
    (s : SurfaceState) (fenceFd : Int) (h : fenceFd < 0) :
    setReleaseFenceFd addRel s fenceFd =
      { status := Status.noError, attached := none,
        poolStatus := none, state := s } := by
  simp [setReleaseFenceFd, not_le.mpr h]

/-- C10 witness: the negative-descriptor theorem applied at a concrete
input. -/
theorem setReleaseFenceFd_negativeFd_witness :
    setReleaseFenceFd (fun _ _ => Status.otherError (-22)) sSame (-1) =
      { status := Status.noError, attached := none,
        poolStatus := none, state := sSame } :=
  setReleaseFenceFd_negativeFd (fun _ _ => Status.otherError (-22)) sSame
    (-1) (by decide)

end FramebufferSurface
